import Mathlib

/-!
Verification development for `rpathlib`: a pathlib-like interface whose
operations are executed by an rclone control plane.  We shallowly embed the
path/address model (`RPath`), the backend-address parser, and the operation
protocol of `src/rpathlib/__init__.py` and `src/rpathlib/utils.py`, and prove
the specified properties about them.
-/

namespace Rpathlib

/-! Part: PurePosixPath model

Python `pathlib.PurePosixPath` keeps a root marker (`''`, `'/'` or `'//'`:
exactly two leading slashes are preserved, any other positive number collapses
to one) and the list of non-empty, non-`'.'` components.  `str` rejoins them,
rendering the empty relative path as `"."`. -/

structure PP where
  root : Nat
  parts : List String
deriving DecidableEq, Repr

def ppRootStr : Nat → String
  | 0 => ""
  | 1 => "/"
  | _ => "//"

/-- Join components with `/` separators (kernel-reducible `String.intercalate`). -/
def joinSlash : List String → String
  | [] => ""
  | [p] => p
  | p :: rest => p ++ "/" ++ joinSlash rest

/-- Python `str()` of a `PurePosixPath`. -/
def strPP (p : PP) : String :=
  if p.root = 0 ∧ p.parts = [] then "." else ppRootStr p.root ++ joinSlash p.parts

def countLeadSlash : List Char → Nat
  | '/' :: rest => countLeadSlash rest + 1
  | _ => 0

/-- Python `'x/y'.split('/')` on character lists (keeps empty groups). -/
def splitOnSlash : List Char → List (List Char)
  | [] => [[]]
  | '/' :: rest => [] :: splitOnSlash rest
  | c :: rest =>
    match splitOnSlash rest with
    | [] => [[c]]
    | g :: gs => (c :: g) :: gs

/-- Construction of a `PurePosixPath` from a string. -/
def parsePP (s : String) : PP :=
  let n := countLeadSlash s.toList
  { root := if n = 0 then 0 else if n = 2 then 2 else 1,
    parts := ((splitOnSlash s.toList).map String.mk).filter (fun c => c != "" && c != ".") }

/-- Model of `PurePosixPath.__truediv__`: an absolute right operand replaces the left. -/
def joinPP (p q : PP) : PP :=
  if q.root ≠ 0 then q else ⟨p.root, p.parts ++ q.parts⟩

/-- Model of `PurePosixPath.parent`. -/
def parentPP (p : PP) : PP := ⟨p.root, p.parts.dropLast⟩

/-- Model of `PurePosixPath.is_absolute()`. -/
def ppIsAbsolute (p : PP) : Bool := p.root != 0

/-- Test `self.path == pathlib.PurePosixPath()`: the path is the empty (`"."`) path. -/
def emptyPP (p : PP) : Bool := p.root == 0 && p.parts == []

/-! Part: The backend-address parser

`RPath.__init__` splits a string with
`re.match(r'^((:?[^:\x22]+|\x22[^\x22]*\x22)+:)?(.*)$', path)`.
The group-1 grammar is one or more groups of either a run of characters that
are neither `:` nor `\x22`, optionally preceded by a `:`, or a double-quoted
(possibly empty) string, followed by a terminating `:`.  With greedy
backtracking the backend is the longest prefix of that shape: the prefix up to
the last colon `i` such that `s[0:i]` matches the group grammar.  `scanBackend`
decides that grammar: outside quotes a `:` must be immediately followed by a
plain character, and quotes must balance. -/

def scanBackend (inq : Bool) : List Char → Bool
  | [] => !inq
  | c :: rest =>
    if inq then
      if c = '"' then scanBackend false rest else scanBackend true rest
    else
      if c = '"' then scanBackend true rest
      else if c = ':' then
        match rest with
        | [] => false
        | d :: rest2 => if d ≠ ':' ∧ d ≠ '"' then scanBackend false rest2 else false
      else scanBackend false rest

/-- The prefix grammar `(:?[^:\x22]+|\x22[^\x22]*\x22)+` of the address regex. -/
def isGPlus (t : List Char) : Bool := !t.isEmpty && scanBackend false t

/-- Index of the colon terminating the longest backend prefix, if any. -/
def findSplitIdx (s : List Char) : Option Nat :=
  (List.range s.length).reverse.find? (fun i => s.getD i ' ' == ':' && isGPlus (s.take i))

/-- The regex split: group 1 (backend up to and including its final colon, or
`none`) and group 3 (the remainder). -/
def splitRemoteStr (s : String) : Option String × String :=
  match findSplitIdx s.toList with
  | some i => (some (String.mk (s.toList.take (i + 1))), String.mk (s.toList.drop (i + 1)))
  | none => (none, s)

/-! Part: The RPath value -/

structure RPath where
  remote : String
  path : PP
deriving DecidableEq, Repr

/-- Model of `RPath.__init__` on a string argument: split out the backend (defaulting
to the `:local:` sentinel) and normalize the remainder as a posix path. -/
def parseRPath (s : String) : RPath :=
  match splitRemoteStr s with
  | (some b, rest) => ⟨b, parsePP rest⟩
  | (none, rest) => ⟨":local:", parsePP rest⟩

namespace RPath

/-- Model of `RPath._fs`. -/
def fsPart (p : RPath) : String :=
  if p.remote = ":local:" then (if ppIsAbsolute p.path then "/" else ":local:") else p.remote

/-- Model of `RPath._remote`. -/
def remotePart (p : RPath) : String :=
  if emptyPP p.path then "" else strPP p.path

/-- Model of `RPath.__str__`. -/
def toStr (p : RPath) : String := p.fsPart ++ p.remotePart

/-- Model of `RPath.__repr__`. -/
def reprStr (p : RPath) : String := "RPath(" ++ p.toStr ++ ")"

/-- The pair Python's `RPath.__hash__` hashes: `(self.remote, self.path)`
(a `PurePosixPath` itself hashes its string form). -/
def hashKey (p : RPath) : String × String := (p.remote, strPP p.path)

/-- Model of `RPath.__eq__` against a value that is already an `RPath`:
`repr(self) == repr(value)`. -/
def beq (p q : RPath) : Bool := p.reprStr == q.reprStr

/-- Model of `RPath.parent`. -/
def parent (p : RPath) : RPath := ⟨p.remote, parentPP p.path⟩

/-- Model of `RPath.name`. -/
def name (p : RPath) : String := p.path.parts.getLastD ""

/-- Model of `RPath.__truediv__` with a string (or `PurePath`) right operand. -/
def div (p : RPath) (s : String) : RPath := ⟨p.remote, joinPP p.path (parsePP s)⟩

end RPath

/-! Part: Python exceptions raised by the layer -/

inductive PyErr where
  /-- Python `FileNotFoundError(msg)`. -/
  | fileNotFound (msg : String)
  /-- Python `FileExistsError(msg)`. -/
  | fileExists (msg : String)
  /-- Python `IsADirectoryError(msg)`. -/
  | isADirectory (msg : String)
  /-- Python `RuntimeError(msg)`. -/
  | runtimeError (msg : String)
  /-- Python `NotImplementedError`. -/
  | notImplemented
  /-- Python bare `Exception(msg)`. -/
  | exn (msg : String)
  /-- any other failure surfaced by the client call itself -/
  | clientFailure (msg : String)
deriving DecidableEq, Repr

/-! Part: Rendering per the specification's words

`specNormalize` is modelled from the spec sentence "Path address textual form:
`<backend><relativePath>` with the local-filesystem sentinel rendered as `/`
when the path is absolute-local or empty otherwise", for comparison with the
code's `__str__`.  `amendedNormalize` is the same formula with the sentinel
kept verbatim as `:local:` when the path is not absolute-local, which is what
`RPath._fs` actually renders. -/

def specRenderAddr (b : String) (p : PP) : String :=
  (if b = ":local:" then (if ppIsAbsolute p then "/" else "") else b)
    ++ (if emptyPP p then "" else strPP p)

def specNormalize (s : String) : String :=
  match splitRemoteStr s with
  | (some b, rest) => specRenderAddr b (parsePP rest)
  | (none, rest) => specRenderAddr ":local:" (parsePP rest)

def amendedRenderAddr (b : String) (p : PP) : String :=
  (if b = ":local:" then (if ppIsAbsolute p then "/" else ":local:") else b)
    ++ (if emptyPP p then "" else strPP p)

def amendedNormalize (s : String) : String :=
  match splitRemoteStr s with
  | (some b, rest) => amendedRenderAddr b (parsePP rest)
  | (none, rest) => amendedRenderAddr ":local:" (parsePP rest)

/-! Part: stat / exists / is_file (`RPath.stat`, `RPath.exists`, `RPath.is_file`)

The control-plane client is modelled as an oracle: either the `operations/stat`
response (whose `item` field may be absent) or a raised failure. -/

/-- The item record of an `operations/stat` response; carries at least `IsDir`. -/
structure StatItem where
  IsDir : Bool
deriving DecidableEq, Repr

/-- An `operations/stat` response: `ret.get('item')`. -/
structure StatResp where
  item : Option StatItem
deriving DecidableEq, Repr

/-- Model of `RPath.stat`: propagate a client failure; raise `FileNotFoundError(self._remote)`
when the response carries no item; otherwise return the item. -/
def RPath.stat (self : RPath) (resp : Except PyErr StatResp) : Except PyErr StatItem :=
  match resp with
  | .error e => .error e
  | .ok r =>
    match r.item with
    | none => .error (.fileNotFound self.remotePart)
    | some it => .ok it

/-- Model of `RPath.exists`: runs `stat()` with `FileNotFoundError` mapped to `False`. -/
def RPath.exists (self : RPath) (resp : Except PyErr StatResp) : Except PyErr Bool :=
  match self.stat resp with
  | .error (.fileNotFound _) => .ok false
  | .error e => .error e
  | .ok _ => .ok true

/-- Model of `RPath.is_file`: computes `not stat()['IsDir']`. -/
def RPath.is_file (self : RPath) (resp : Except PyErr StatResp) : Except PyErr Bool :=
  match self.stat resp with
  | .error e => .error e
  | .ok it => .ok (!it.IsDir)

/-! Part: read_text (`RPath.read_text`) -/

/-- A `core/command` response: `ret['error']` and `ret['result']`. -/
structure CatResp where
  error : Bool
  result : String
deriving DecidableEq, Repr

/-- A `core/command` call record. -/
structure CoreCommandCall where
  command : String
  arg : List String
deriving DecidableEq, Repr

/-- Python `'not found' in r` (substring containment). -/
def containsSub (hay needle : List Char) : Bool :=
  match hay with
  | [] => needle.isEmpty
  | _ :: t => needle.isPrefixOf hay || containsSub t needle

/-- Model of `RPath.read_text`: raise `IsADirectoryError` unless `is_file()`; then issue
`core/command cat --quiet <self>` and interpret its error/result fields.
Returns the issued calls alongside the outcome. -/
def RPath.read_text (self : RPath) (isFileRes : Except PyErr Bool) (cat : CatResp) :
    List CoreCommandCall × Except PyErr String :=
  match isFileRes with
  | .error e => ([], .error e)
  | .ok false => ([], .error (.isADirectory (strPP self.path)))
  | .ok true =>
    let call : CoreCommandCall := ⟨"cat", ["--quiet", self.toStr]⟩
    if cat.error then
      if containsSub cat.result.toList "not found".toList then
        ([call], .error (.fileNotFound (strPP self.path)))
      else
        ([call], .error (.exn cat.result))
    else
      ([call], .ok cat.result)

/-! Part: mkdir (`RPath.mkdir`) -/

/-- An `operations/mkdir` call record (`fs`, `remote`). -/
structure MkdirCall where
  fs : String
  remote : String
deriving DecidableEq, Repr

/-- Model of `RPath.mkdir`: if the target exists, raise `FileExistsError` unless
`exist_ok`, in which case return without calling; otherwise issue the
`operations/mkdir` call.  (`parents` is accepted but unused by the source.) -/
def RPath.mkdir (self : RPath) (existsRes : Except PyErr Bool) (exist_ok : Bool) :
    List MkdirCall × Except PyErr Unit :=
  match existsRes with
  | .error e => ([], .error e)
  | .ok true => if exist_ok then ([], .ok ()) else ([], .error (.fileExists (strPP self.path)))
  | .ok false => ([⟨self.fsPart, self.remotePart⟩], .ok ())

/-! Part: copyfile / rename (`RPath.copyfile`, `RPath.rename`) -/

/-- The `other` argument of `copyfile`/`rename`: a string, an `RPath`, or a
value of any other type. -/
inductive CopyDest where
  | str (s : String)
  | rpath (p : RPath)
  | otherVal
deriving DecidableEq, Repr

/-- Destination resolution shared by `copyfile` and `rename`: re-split a string
argument with the address regex, default its backend to `self.remote`, then
take `RPath(other_path, other_remote)` when the remainder starts with `/` and
`self.parent / other_path` otherwise; keep an `RPath` as given; reject any
other type with `NotImplementedError`. -/
def RPath.resolveDest (self : RPath) (o : CopyDest) : Except PyErr RPath :=
  match o with
  | .rpath p => .ok p
  | .otherVal => .error .notImplemented
  | .str s =>
    match splitRemoteStr s with
    | (ob, opath) =>
      let orem := ob.getD self.remote
      if opath.toList.head? = some '/' then .ok ⟨orem, parsePP opath⟩
      else .ok (self.parent.div opath)

/-- An `operations/copyfile` / `operations/movefile` call record. -/
structure TransferCall where
  op : String
  srcFs : String
  srcRemote : String
  dstFs : String
  dstRemote : String
deriving DecidableEq, Repr

/-- Model of `RPath.copyfile`: resolve the destination, then issue `operations/copyfile`
with the source and destination `fs`/`remote` pairs. -/
def RPath.copyfile (self : RPath) (o : CopyDest) : Except PyErr TransferCall :=
  (self.resolveDest o).map fun d =>
    ⟨"operations/copyfile", self.fsPart, self.remotePart, d.fsPart, d.remotePart⟩

/-- Model of `RPath.rename`: resolve the destination, then issue `operations/movefile`
with the source and destination `fs`/`remote` pairs. -/
def RPath.rename (self : RPath) (o : CopyDest) : Except PyErr TransferCall :=
  (self.resolveDest o).map fun d =>
    ⟨"operations/movefile", self.fsPart, self.remotePart, d.fsPart, d.remotePart⟩

/-! Part: The mount teardown (`RPath.mount` / `RPath.a_mount` finally block)

The teardown polls `vfs/stats`; while either `uploadsInProgress` or
`uploadsQueued` is nonzero it sleeps and repolls; once both are zero it sleeps
once more and issues `mount/unmount`.  We model the sequence of `vfs/stats`
responses as an oracle list and record the event trace; if the oracle list is
exhausted the loop is still polling, so no unmount is emitted. -/

structure VfsStats where
  uploadsInProgress : Nat
  uploadsQueued : Nat
deriving DecidableEq, Repr

/-- Python truthiness of `ret['diskCache']['uploadsInProgress'] or
ret['diskCache']['uploadsQueued']`. -/
def drainBarrier (st : VfsStats) : Bool :=
  st.uploadsInProgress != 0 || st.uploadsQueued != 0

inductive MountEvent where
  | poll (st : VfsStats)
  | sleep
  | unmount
deriving DecidableEq, Repr

def mountTeardown : List VfsStats → List MountEvent
  | [] => []
  | st :: rest =>
    if drainBarrier st then .poll st :: .sleep :: mountTeardown rest
    else [.poll st, .sleep, .unmount]

/-! Part: ensure_event_loop_thread (`utils.ensure_event_loop_thread`)

The calling context either has a running event loop in the current thread
(`asyncio.get_running_loop()` succeeds) or not.  With a running loop the
function yields that loop and returns without touching threads; otherwise it
makes a fresh loop and starts one dedicated thread running it (the calling
thread's own running-loop state is unchanged, since the new loop runs
elsewhere).  Result: yielded loop id, the caller's context after the call, and
the number of threads started. -/

structure AsyncCtx where
  runningLoop : Option Nat
deriving DecidableEq, Repr

def ensure_event_loop_thread (ctx : AsyncCtx) (freshId : Nat) : Nat × AsyncCtx × Nat :=
  match ctx.runningLoop with
  | some l => (l, ctx, 0)
  | none => (freshId, ctx, 1)

/-! Part: awith_tasks (`utils.awith_tasks`)

On scope exit the `finally` block walks the supervised tasks in order, cancels
each and awaits it with `asyncio.CancelledError` suppressed.  Awaiting a task
either acknowledges the cancellation, returns normally, or raises some other
exception — which propagates out of the `finally`, skipping the remaining
tasks.  We model each task by its outcome on cancel+await and return how many
tasks were cancelled-and-awaited plus the propagated error (a teardown error
replaces the scope body's own error). -/

inductive TaskOutcome where
  /-- Case where `await task` raises `asyncio.CancelledError` (suppressed). -/
  | cancelled
  /-- Case where `await task` returns normally. -/
  | completed
  /-- Case where `await task` raises another exception. -/
  | failed (e : PyErr)
deriving DecidableEq, Repr

def cancelTasks : List TaskOutcome → Nat × Option PyErr
  | [] => (0, none)
  | .failed e :: _ => (1, some e)
  | .cancelled :: rest => let r := cancelTasks rest; (r.1 + 1, r.2)
  | .completed :: rest => let r := cancelTasks rest; (r.1 + 1, r.2)

def awith_tasks (tasks : List TaskOutcome) (bodyErr : Option PyErr) : Nat × Option PyErr :=
  let r := cancelTasks tasks
  (r.1, match r.2 with | some e => some e | none => bodyErr)

/-- Test whether a supervised task's cancel+await raises a non-cancellation
exception. -/
def isFailedTask : TaskOutcome → Bool
  | .failed _ => true
  | _ => false

/-! Part: RPath construction from arbitrary values and `__eq__` (`RPath.__init__`) -/

/-- The value passed to `RPath(...)` (with `remote=None`): an `RPath`, a native
`pathlib.Path` (already a posix path value), a string, or anything else. -/
inductive PyVal where
  | str (s : String)
  | path (p : PP)
  | rpath (r : RPath)
  | otherVal
deriving DecidableEq, Repr

/-- Model of `RPath.__init__`: raise `RuntimeError` when no client is set; copy an
`RPath`; fix the backend to `:local:` for a native path; parse a string;
raise `NotImplementedError` for any other type. -/
def RPath.init (clientSet : Bool) (v : PyVal) : Except PyErr RPath :=
  if clientSet then
    match v with
    | .rpath r => .ok r
    | .path p => .ok ⟨":local:", p⟩
    | .str s => .ok (parseRPath s)
    | .otherVal => .error .notImplemented
  else .error (.runtimeError "RClone client not running")

/-- Model of `RPath.__eq__`: compare `repr(self)` with `repr(RPath(value))`, constructing
an `RPath` from `value` first unless it already is one. -/
def RPath.eqOp (clientSet : Bool) (self : RPath) (v : PyVal) : Except PyErr Bool :=
  match v with
  | .rpath q => .ok (self.reprStr == q.reprStr)
  | _ => (RPath.init clientSet v).map fun q => self.reprStr == q.reprStr

/-! Part: Helper lemmas -/

/-- Equality of `repr` strings is equality of `str` forms. -/
theorem reprStr_eq_iff (p q : RPath) : p.reprStr = q.reprStr ↔ p.toStr = q.toStr := by
  unfold RPath.reprStr
  constructor
  · intro h
    have h2 := congrArg String.data h
    simp [String.data_append] at h2
    exact String.ext h2
  · intro h
    rw [h]

theorem countLeadSlash_pos {l : List Char} (h : l.head? = some '/') : countLeadSlash l ≠ 0 := by
  cases l with
  | nil => simp at h
  | cons c t =>
    simp at h
    subst h
    simp [countLeadSlash]

/-- A string that starts with `/` parses to an absolute posix path. -/
theorem parsePP_root_ne_zero {s : String} (h : s.toList.head? = some '/') :
    (parsePP s).root ≠ 0 := by
  have hc := countLeadSlash_pos h
  unfold parsePP
  simp only
  split
  · omega
  · split <;> omega

/-- Joining an absolute posix path onto anything yields the absolute path. -/
theorem joinPP_absolute {p q : PP} (h : q.root ≠ 0) : joinPP p q = q := by
  unfold joinPP
  rw [if_pos h]

/-- The teardown loop of `awith_tasks` when no supervised task fails: every
task is cancelled and awaited and nothing propagates. -/
theorem cancelTasks_no_fail : ∀ tasks : List TaskOutcome,
    tasks.all (fun t => !isFailedTask t) = true → cancelTasks tasks = (tasks.length, none) := by
  intro tasks
  induction tasks with
  | nil => intro _; rfl
  | cons t rest ih =>
    intro h
    simp only [List.all_cons, Bool.and_eq_true] at h
    cases t with
    | failed e => simp [isFailedTask] at h
    | cancelled =>
      rw [cancelTasks, ih h.2]
      simp
    | completed =>
      rw [cancelTasks, ih h.2]
      simp

/-- The teardown loop of `awith_tasks` when a task fails: processing stops at
the first failing task and its error propagates. -/
theorem cancelTasks_first_fail : ∀ (pre post : List TaskOutcome) (e : PyErr),
    pre.all (fun t => !isFailedTask t) = true →
    cancelTasks (pre ++ .failed e :: post) = (pre.length + 1, some e) := by
  intro pre
  induction pre with
  | nil => intro post e _; rfl
  | cons t rest ih =>
    intro post e h
    simp only [List.all_cons, Bool.and_eq_true] at h
    cases t with
    | failed e2 => simp [isFailedTask] at h
    | cancelled =>
      rw [List.cons_append, cancelTasks, ih post e h.2]
      simp
    | completed =>
      rw [List.cons_append, cancelTasks, ih post e h.2]
      simp

/-! Part: The claims -/

/-- C1 (counterexample): the claim `render(parse(s)) == normalize(s)` — with the
local-filesystem sentinel rendered as the empty string when the parsed path is
not absolute-local — fails at the valid path string `"foo"`: the code renders
`":local:foo"` while the claimed normal form is `"foo"`. -/
theorem C1_counterexample :
    (parseRPath "foo").toStr = ":local:foo" ∧ specNormalize "foo" = "foo" ∧
      (parseRPath "foo").toStr ≠ specNormalize "foo" := by
  decide

/-- C1 (amended): for every path string `s`, constructing an `RPath` from `s`
and rendering it back yields the parsed backend followed by the posix-normalized
path, with the local-filesystem sentinel rendered as `/` when the parsed path is
absolute-local and kept verbatim as `:local:` (not the empty string) otherwise. -/
theorem C1_render_amended (s : String) : (parseRPath s).toStr = amendedNormalize s := by
  unfold parseRPath amendedNormalize
  rcases hs : splitRemoteStr s with ⟨b, rest⟩
  cases b <;>
    simp [RPath.toStr, RPath.fsPart, RPath.remotePart, amendedRenderAddr]

/-- C2: `p == q` holds exactly when the rendered strings match, yet `__hash__`
hashes the structural `(remote, path)` pair, so the values
`RPath('a:x') / 'b:c'` and `RPath('a:x/b:c')` — which both render as
`"a:x/b:c"` and therefore compare equal — carry different hash keys,
violating the claimed (and Python-required) hash/equality consistency. -/
theorem C2_hash_inconsistency :
    ((parseRPath "a:x").div "b:c").toStr = "a:x/b:c" ∧
    (parseRPath "a:x/b:c").toStr = "a:x/b:c" ∧
    RPath.beq ((parseRPath "a:x").div "b:c") (parseRPath "a:x/b:c") = true ∧
    RPath.hashKey ((parseRPath "a:x").div "b:c") ≠ RPath.hashKey (parseRPath "a:x/b:c") := by
  decide

/-- C3 (counterexample): for a destination string that carries a backend prefix
but a relative path part, the parsed-out backend is ignored: copying
`src:a/b` to `"dst:c"` issues a call whose `dstFs` is `src:` (inherited from
the source), not the parsed-out `dst:` the claim requires. -/
theorem C3_counterexample :
    splitRemoteStr "dst:c" = (some ("dst:" : String), "c") ∧
    (parseRPath "src:a/b").copyfile (.str "dst:c") =
      .ok ⟨"operations/copyfile", "src:", "a/b", "src:", "a/c"⟩ ∧
    ("src:" : String) ≠ "dst:" := by
  refine ⟨by decide, by rfl, by decide⟩

/-- C3 (amended): an `RPath` destination is used as given; any other
non-string type raises the unsupported-type error; a string destination with
no backend prefix is resolved against the parent, inheriting the source's
backend; a string destination with a backend prefix uses that backend only
when the remaining path part is absolute (starts with `/`) — when the path
part is relative the parsed-out backend is ignored and the string is resolved
against the parent with the source's backend; in every resolved case the
issued copy/move call carries the destination's `_fs`/`_remote` as
`dstFs`/`dstRemote`. -/
theorem C3_resolution_amended :
    (∀ self p : RPath,
      self.copyfile (.rpath p) =
        .ok ⟨"operations/copyfile", self.fsPart, self.remotePart, p.fsPart, p.remotePart⟩ ∧
      self.rename (.rpath p) =
        .ok ⟨"operations/movefile", self.fsPart, self.remotePart, p.fsPart, p.remotePart⟩) ∧
    (∀ self : RPath,
      self.copyfile .otherVal = .error .notImplemented ∧
      self.rename .otherVal = .error .notImplemented) ∧
    (∀ (self : RPath) (s rest : String), splitRemoteStr s = (none, rest) →
      self.resolveDest (.str s) = .ok (self.parent.div rest)) ∧
    (∀ (self : RPath) (s b rest : String), splitRemoteStr s = (some b, rest) →
      rest.toList.head? = some '/' → self.resolveDest (.str s) = .ok ⟨b, parsePP rest⟩) ∧
    (∀ (self : RPath) (s b rest : String), splitRemoteStr s = (some b, rest) →
      rest.toList.head? ≠ some '/' → self.resolveDest (.str s) = .ok (self.parent.div rest)) ∧
    (∀ (self d : RPath) (o : CopyDest), self.resolveDest o = .ok d →
      self.copyfile o =
        .ok ⟨"operations/copyfile", self.fsPart, self.remotePart, d.fsPart, d.remotePart⟩ ∧
      self.rename o =
        .ok ⟨"operations/movefile", self.fsPart, self.remotePart, d.fsPart, d.remotePart⟩) := by
  refine ⟨?_, ?_, ?_, ?_, ?_, ?_⟩
  · intro self p
    constructor <;> rfl
  · intro self
    constructor <;> rfl
  · intro self s rest h
    simp only [RPath.resolveDest]
    rw [h]
    by_cases hh : rest.toList.head? = some '/'
    · simp only [hh, if_pos]
      simp [RPath.parent, RPath.div, joinPP_absolute (parsePP_root_ne_zero hh)]
    · simp only [String.toList] at hh
      simp [hh]
  · intro self s b rest h hh
    simp only [RPath.resolveDest]
    rw [h]
    simp only [String.toList] at hh
    simp [hh]
  · intro self s b rest h hh
    simp only [RPath.resolveDest]
    rw [h]
    simp only [String.toList] at hh
    simp [hh]
  · intro self d o h
    unfold RPath.copyfile RPath.rename
    rw [h]
    constructor <;> rfl

/-- C3 (witness): the amended resolution rules applied to concrete sources and
destinations. -/
theorem C3_witness :
    (parseRPath "src:a/b").copyfile (.rpath (parseRPath "dst:/c")) =
      .ok ⟨"operations/copyfile", (parseRPath "src:a/b").fsPart,
        (parseRPath "src:a/b").remotePart, (parseRPath "dst:/c").fsPart,
        (parseRPath "dst:/c").remotePart⟩ ∧
    (parseRPath "src:a/b").rename .otherVal = .error .notImplemented ∧
    (parseRPath "src:a/b").resolveDest (.str "x/y") =
      .ok ((parseRPath "src:a/b").parent.div "x/y") ∧
    (parseRPath "src:a/b").resolveDest (.str "dst:/c") = .ok ⟨"dst:", parsePP "/c"⟩ ∧
    (parseRPath "src:a/b").resolveDest (.str "dst:c") =
      .ok ((parseRPath "src:a/b").parent.div "c") :=
  ⟨(C3_resolution_amended.1 _ _).1,
   (C3_resolution_amended.2.1 _).2,
   C3_resolution_amended.2.2.1 (parseRPath "src:a/b") "x/y" "x/y" (by decide),
   C3_resolution_amended.2.2.2.1 (parseRPath "src:a/b") "dst:/c" "dst:" "/c"
     (by decide) (by decide),
   C3_resolution_amended.2.2.2.2.1 (parseRPath "src:a/b") "dst:c" "dst:" "c"
     (by decide) (by decide)⟩

/-- C4: whenever the mount-teardown trace issues `mount/unmount`, the trace is
a run of polls at which the drain barrier (uploads in progress or queued) was
still raised, followed by a poll reporting both counters zero, one extra fixed
delay, and only then the unmount; no unmount occurs before such a poll. -/
theorem C4_drain_before_unmount : ∀ stats : List VfsStats,
    MountEvent.unmount ∈ mountTeardown stats →
    ∃ pre st, mountTeardown stats = pre ++ [.poll st, .sleep, .unmount] ∧
      drainBarrier st = false ∧ MountEvent.unmount ∉ pre ∧
      ∀ st2, MountEvent.poll st2 ∈ pre → drainBarrier st2 = true := by
  intro stats
  induction stats with
  | nil => intro h; simp [mountTeardown] at h
  | cons st rest ih =>
    intro h
    by_cases hb : drainBarrier st = true
    · rw [mountTeardown, if_pos hb] at h
      simp at h
      obtain ⟨pre, st2, h1, h2, h3, h4⟩ := ih h
      refine ⟨.poll st :: .sleep :: pre, st2, ?_, h2, ?_, ?_⟩
      · rw [mountTeardown, if_pos hb, h1]
        simp
      · simp [h3]
      · intro st3 hm
        simp at hm
        rcases hm with h5 | h5
        · rw [h5]
          exact hb
        · exact h4 st3 h5
    · rw [Bool.not_eq_true] at hb
      refine ⟨[], st, ?_, hb, by simp, by simp⟩
      rw [mountTeardown, hb]
      simp

/-- C4 (witness): the drain property on a concrete poll sequence with one
busy poll followed by a drained poll. -/
theorem C4_witness :
    ∃ pre st, mountTeardown [⟨1, 0⟩, ⟨0, 0⟩] = pre ++ [.poll st, .sleep, .unmount] ∧
      drainBarrier st = false ∧ MountEvent.unmount ∉ pre ∧
      ∀ st2, MountEvent.poll st2 ∈ pre → drainBarrier st2 = true :=
  C4_drain_before_unmount _ (by decide)

/-- C5: `stat()` raises `FileNotFoundError` exactly when the control-plane
response carries no item and returns the item otherwise; `exists()` is `false`
exactly when `stat()` raises `FileNotFoundError`, `true` when `stat()`
succeeds, and propagates any other failure of `stat()` unchanged. -/
theorem C5_stat_exists :
    (∀ (self : RPath) (r : StatResp),
      (∃ m, self.stat (.ok r) = .error (.fileNotFound m)) ↔ r.item = none) ∧
    (∀ (self : RPath) (r : StatResp) (it : StatItem),
      r.item = some it → self.stat (.ok r) = .ok it) ∧
    (∀ (self : RPath) (resp : Except PyErr StatResp),
      self.exists resp = .ok false ↔ ∃ m, self.stat resp = .error (.fileNotFound m)) ∧
    (∀ (self : RPath) (resp : Except PyErr StatResp) (it : StatItem),
      self.stat resp = .ok it → self.exists resp = .ok true) ∧
    (∀ (self : RPath) (resp : Except PyErr StatResp) (e : PyErr),
      self.stat resp = .error e → (∀ m, e ≠ .fileNotFound m) → self.exists resp = .error e) := by
  refine ⟨?_, ?_, ?_, ?_, ?_⟩
  · intro self r
    cases hi : r.item <;> simp [RPath.stat, hi]
  · intro self r it hi
    simp [RPath.stat, hi]
  · intro self resp
    unfold RPath.exists
    cases hs : self.stat resp with
    | ok it => simp
    | error e => cases e <;> simp
  · intro self resp it hs
    unfold RPath.exists
    rw [hs]
  · intro self resp e hs he
    unfold RPath.exists
    rw [hs]
    cases e with
    | fileNotFound m => exact absurd rfl (he m)
    | _ => rfl

/-- C5 (witness): the stat/exists contract at concrete responses: an item-less
response, a response with an item, and a client failure. -/
theorem C5_witness :
    ((∃ m, (parseRPath "remote:x").stat (.ok ⟨none⟩) = .error (.fileNotFound m)) ↔
      (⟨none⟩ : StatResp).item = none) ∧
    (parseRPath "remote:x").stat (.ok ⟨some ⟨true⟩⟩) = .ok ⟨true⟩ ∧
    ((parseRPath "remote:x").exists (.ok ⟨none⟩) = .ok false ↔
      ∃ m, (parseRPath "remote:x").stat (.ok ⟨none⟩) = .error (.fileNotFound m)) ∧
    (parseRPath "remote:x").exists (.ok ⟨some ⟨true⟩⟩) = .ok true ∧
    (parseRPath "remote:x").exists (.error (.runtimeError "down")) =
      .error (.runtimeError "down") :=
  ⟨C5_stat_exists.1 _ _,
   C5_stat_exists.2.1 _ _ _ rfl,
   C5_stat_exists.2.2.1 _ _,
   C5_stat_exists.2.2.2.1 _ _ _ rfl,
   C5_stat_exists.2.2.2.2 _ _ _ rfl (fun m h => PyErr.noConfusion h)⟩

/-- C6: `read_text()` raises `IsADirectoryError` when `is_file()` is false;
otherwise it issues the generic `core/command cat` call and, on a reported
error, raises `FileNotFoundError` when the result contains the not-found
indicator and a generic `Exception` carrying the result otherwise; on success
it returns the result text. -/
theorem C6_read_text :
    (∀ (self : RPath) (cat : CatResp),
      self.read_text (.ok false) cat = ([], .error (.isADirectory (strPP self.path)))) ∧
    (∀ (self : RPath) (cat : CatResp), cat.error = true →
      containsSub cat.result.toList "not found".toList = true →
      self.read_text (.ok true) cat =
        ([⟨"cat", ["--quiet", self.toStr]⟩], .error (.fileNotFound (strPP self.path)))) ∧
    (∀ (self : RPath) (cat : CatResp), cat.error = true →
      containsSub cat.result.toList "not found".toList = false →
      self.read_text (.ok true) cat =
        ([⟨"cat", ["--quiet", self.toStr]⟩], .error (.exn cat.result))) ∧
    (∀ (self : RPath) (cat : CatResp), cat.error = false →
      self.read_text (.ok true) cat = ([⟨"cat", ["--quiet", self.toStr]⟩], .ok cat.result)) := by
  refine ⟨?_, ?_, ?_, ?_⟩
  · intro self cat
    rfl
  · intro self cat he hc
    have hc2 : containsSub cat.result.data ['n', 'o', 't', ' ', 'f', 'o', 'u', 'n', 'd'] = true :=
      hc
    simp [RPath.read_text, he, hc2]
  · intro self cat he hc
    have hc2 : containsSub cat.result.data ['n', 'o', 't', ' ', 'f', 'o', 'u', 'n', 'd'] = false :=
      hc
    simp [RPath.read_text, he, hc2]
  · intro self cat he
    simp [RPath.read_text, he]

/-- C6 (witness): `read_text` at a directory, a not-found error result, a
generic error result, and a successful result. -/
theorem C6_witness :
    (parseRPath "remote:x").read_text (.ok false) ⟨true, "irrelevant"⟩ =
      ([], .error (.isADirectory (strPP (parseRPath "remote:x").path))) ∧
    (parseRPath "remote:x").read_text (.ok true) ⟨true, "file not found"⟩ =
      ([⟨"cat", ["--quiet", (parseRPath "remote:x").toStr]⟩],
        .error (.fileNotFound (strPP (parseRPath "remote:x").path))) ∧
    (parseRPath "remote:x").read_text (.ok true) ⟨true, "boom"⟩ =
      ([⟨"cat", ["--quiet", (parseRPath "remote:x").toStr]⟩], .error (.exn "boom")) ∧
    (parseRPath "remote:x").read_text (.ok true) ⟨false, "data"⟩ =
      ([⟨"cat", ["--quiet", (parseRPath "remote:x").toStr]⟩], .ok "data") :=
  ⟨C6_read_text.1 _ _,
   C6_read_text.2.1 _ _ rfl (by decide),
   C6_read_text.2.2.1 _ _ rfl (by decide),
   C6_read_text.2.2.2 _ _ rfl⟩

/-- C7: `mkdir(exist_ok)` raises `FileExistsError` when the target exists and
`exist_ok` is false, is a no-op issuing no control-plane call when the target
exists and `exist_ok` is true, and issues the `operations/mkdir` call exactly
when the target does not exist (an `exists()` failure propagates). -/
theorem C7_mkdir :
    (∀ self : RPath,
      self.mkdir (.ok true) false = ([], .error (.fileExists (strPP self.path)))) ∧
    (∀ self : RPath, self.mkdir (.ok true) true = ([], .ok ())) ∧
    (∀ (self : RPath) (exist_ok : Bool),
      self.mkdir (.ok false) exist_ok = ([⟨self.fsPart, self.remotePart⟩], .ok ())) ∧
    (∀ (self : RPath) (e : PyErr) (exist_ok : Bool),
      self.mkdir (.error e) exist_ok = ([], .error e)) :=
  ⟨fun _ => rfl, fun _ => rfl, fun _ _ => rfl, fun _ _ _ => rfl⟩

/-- C8: acquiring the background scheduler from a context whose current thread
already has a running event loop yields that loop and starts no thread, so the
thread-starting branch is unreachable and a nested second acquisition still
starts no thread (at most one overall). -/
theorem C8_ensure_loop : ∀ (ctx : AsyncCtx) (l fresh1 fresh2 : Nat),
    ctx.runningLoop = some l →
    ensure_event_loop_thread ctx fresh1 = (l, ctx, 0) ∧
    (ensure_event_loop_thread ctx fresh1).2.2 +
      (ensure_event_loop_thread (ensure_event_loop_thread ctx fresh1).2.1 fresh2).2.2 ≤ 1 := by
  intro ctx l f1 f2 h
  simp [ensure_event_loop_thread, h]

/-- C8 (witness): nesting the acquisition inside a context running loop `7`
yields loop `7` both times and starts no thread. -/
theorem C8_witness :
    ensure_event_loop_thread ⟨some 7⟩ 99 = (7, ⟨some 7⟩, 0) ∧
    (ensure_event_loop_thread ⟨some 7⟩ 99).2.2 +
      (ensure_event_loop_thread (ensure_event_loop_thread ⟨some 7⟩ 99).2.1 100).2.2 ≤ 1 :=
  C8_ensure_loop ⟨some 7⟩ 7 99 100 rfl

/-- C9 (counterexample): with two supervised tasks of which the first raises a
non-cancellation failure on teardown, only one task is cancelled and awaited —
the second is skipped — so "every supervised task is cancelled and awaited"
fails even though the failure is propagated. -/
theorem C9_counterexample :
    awith_tasks [.failed (.exn "boom"), .cancelled] none = (1, some (.exn "boom")) ∧
    [TaskOutcome.failed (.exn "boom"), .cancelled].length = 2 ∧ (1 : Nat) ≠ 2 := by
  refine ⟨rfl, rfl, by decide⟩

/-- C9 (amended): on scope exit the supervised tasks are cancelled and awaited
in order, suppressing the expected cancellation signal, until a task raises a
non-cancellation failure, which propagates immediately and leaves the
remaining tasks unprocessed; when no task raises such a failure every task is
cancelled and awaited and the scope body's own error (if any) propagates. -/
theorem C9_supervision_amended : ∀ (tasks : List TaskOutcome) (bodyErr : Option PyErr),
    (tasks.all (fun t => !isFailedTask t) = true →
      awith_tasks tasks bodyErr = (tasks.length, bodyErr)) ∧
    (∀ (pre post : List TaskOutcome) (e : PyErr), tasks = pre ++ .failed e :: post →
      pre.all (fun t => !isFailedTask t) = true →
      awith_tasks tasks bodyErr = (pre.length + 1, some e)) := by
  intro tasks bodyErr
  constructor
  · intro h
    unfold awith_tasks
    rw [cancelTasks_no_fail tasks h]
  · intro pre post e htasks h
    unfold awith_tasks
    rw [htasks, cancelTasks_first_fail pre post e h]

/-- C9 (witness): full teardown when no task fails, and truncated teardown
with the failure propagated when the second of two tasks fails. -/
theorem C9_witness :
    awith_tasks [.cancelled, .completed] none = (2, none) ∧
    awith_tasks [.cancelled, .failed (.exn "x")] (some (.exn "b")) = (2, some (.exn "x")) :=
  ⟨(C9_supervision_amended _ _).1 (by decide),
   (C9_supervision_amended [.cancelled, .failed (.exn "x")] _).2
     [.cancelled] [] (.exn "x") rfl (by decide)⟩

/-- C10: `p == v` with a non-`RPath` value first constructs `RPath(v)`, so
with no active client the comparison raises `RuntimeError`, and with a client
an unsupported argument type raises `NotImplementedError` — in neither case
does it return false. -/
theorem C10_eq_construction :
    (∀ (self : RPath) (v : PyVal), (∀ q, v ≠ .rpath q) →
      RPath.eqOp false self v = .error (.runtimeError "RClone client not running")) ∧
    (∀ self : RPath, RPath.eqOp true self .otherVal = .error .notImplemented) := by
  constructor
  · intro self v h
    cases v with
    | rpath q => exact absurd rfl (h q)
    | str s => rfl
    | path p => rfl
    | otherVal => rfl
  · intro self
    rfl

/-- C10 (witness): comparing against a string with no client set raises
`RuntimeError`; comparing against an unsupported type raises
`NotImplementedError`. -/
theorem C10_witness :
    RPath.eqOp false (parseRPath "remote:x") (.str "y") =
      .error (.runtimeError "RClone client not running") ∧
    RPath.eqOp true (parseRPath "remote:x") .otherVal = .error .notImplemented :=
  ⟨C10_eq_construction.1 _ _ (fun q h => PyVal.noConfusion h),
   C10_eq_construction.2 _⟩

end Rpathlib
